import Mathlib

/-!
Verification of `ReconstructionLoss`
(`src/mlpack/methods/ann/loss_functions/reconstruction_loss.hpp`).

The header declares the class: the constructor (default `reduction = true`),
`Forward`, `Backward`, the `OutputParameter()` and `Reduction()` accessors,
and the private members `dist`, `outputParameter`, `reduction`.  The bodies
of the constructor, `Forward` and `Backward` live in
`reconstruction_loss_impl.hpp`, which is not part of the sources at hand;
those bodies are modelled from the specification (§4.2 of the spec).

Tensors are embedded as `List ℚ` (exact arithmetic, one entry per element);
the distribution strategy (spec §4.1) is an injected record of a
per-element log-probability function and a gradient function.  Instance
state is passed explicitly: `Forward`/`Backward` take the current
`ReconstructionLoss` record and return the scalar/gradient together with
the state after the call.
-/

namespace MlpackAnn

/-- Error taxonomy of the spec (§7): `shapeMismatch` when prediction/target
element counts disagree, `dimensionMismatch` when the destination gradient
storage cannot be resized. -/
inductive LossError where
  | shapeMismatch
  | dimensionMismatch
deriving DecidableEq, Repr

/-- Distribution Strategy (spec §4.1): `logProbability` returns the
per-element log-probabilities of the target under the prediction
parameters; `gradient` returns the gradient of the negative
log-probability with respect to the prediction parameters. -/
structure DistStrategy where
  logProbability : List ℚ → List ℚ → List ℚ
  gradient : List ℚ → List ℚ → List ℚ

/-- Instance state of `ReconstructionLoss` (header, private section):
the cached `outputParameter` buffer and the boolean `reduction` flag
(`true` = sum reduction, `false` = mean reduction). -/
structure ReconstructionLoss where
  outputParameter : List ℚ
  reduction : Bool
deriving DecidableEq, Repr

/-- Modelled from the spec: the constructor body is in
`reconstruction_loss_impl.hpp`, absent from the sources.  Spec §4.2:
"Construct(reduction: bool = true) — stores reduction flag …
No failure modes."  The output buffer starts empty. -/
def ReconstructionLoss.construct (reduction : Bool) : ReconstructionLoss :=
  { outputParameter := [], reduction := reduction }

/-- Construction with no argument supplied: the header gives
`ReconstructionLoss(const bool reduction = true)`, so the default
constructed instance uses sum reduction. -/
def ReconstructionLoss.constructDefault : ReconstructionLoss :=
  ReconstructionLoss.construct true

/-- Element count of a tensor (`n_elem` in the source's tensor library). -/
def elementCount (m : List ℚ) : ℕ := m.length

/-- Accessor `bool Reduction() const { return reduction; }`
(header line 81). -/
def ReconstructionLoss.Reduction (s : ReconstructionLoss) : Bool :=
  s.reduction

/-- Accessor `bool& Reduction() { return reduction; }` (header line 83):
writing through the returned reference assigns the member. -/
def ReconstructionLoss.ReductionSet (s : ReconstructionLoss) (b : Bool) :
    ReconstructionLoss :=
  { s with reduction := b }

/-- Read through `OutputDataType& OutputParameter() const`
(header line 76): returns (a reference to) the `outputParameter` member. -/
def ReconstructionLoss.OutputParameterConstGet (s : ReconstructionLoss) :
    List ℚ :=
  s.outputParameter

/-- Write through the reference returned by
`OutputDataType& OutputParameter() const` (header line 76): the returned
reference is non-const, so it designates the `outputParameter` member for
writing as well. -/
def ReconstructionLoss.OutputParameterConstSet (s : ReconstructionLoss)
    (v : List ℚ) : ReconstructionLoss :=
  { s with outputParameter := v }

/-- Read through `OutputDataType& OutputParameter()` (header line 78). -/
def ReconstructionLoss.OutputParameterMutGet (s : ReconstructionLoss) :
    List ℚ :=
  s.outputParameter

/-- Write through the reference returned by
`OutputDataType& OutputParameter()` (header line 78). -/
def ReconstructionLoss.OutputParameterMutSet (s : ReconstructionLoss)
    (v : List ℚ) : ReconstructionLoss :=
  { s with outputParameter := v }

/-- Modelled from the spec: the body of `ReconstructionLoss::Forward` is in
`reconstruction_loss_impl.hpp`, absent from the sources.  Spec §4.2:
computes `raw = -sum(LogProbability(prediction, target))`; returns `raw`
under sum reduction and `raw / element_count(prediction)` under mean
reduction; fails with `ShapeMismatch` when the element counts differ; has
no side effect on the instance, so the state after the call is the state
before it. -/
def ReconstructionLoss.Forward (D : DistStrategy) (s : ReconstructionLoss)
    (prediction target : List ℚ) :
    Except LossError (ℚ × ReconstructionLoss) :=
  if prediction.length = target.length then
    let raw : ℚ := -((D.logProbability prediction target).sum)
    if s.reduction then .ok (raw, s)
    else .ok (raw / (elementCount prediction : ℚ), s)
  else
    .error .shapeMismatch

/-- Modelled from the spec: the gradient computed by `Backward`
(spec §4.2) — `Gradient(prediction, target)` under sum reduction, the same
scaled element-wise by `1 / element_count(prediction)` under mean
reduction. -/
def scaledGradient (D : DistStrategy) (s : ReconstructionLoss)
    (prediction target : List ℚ) : List ℚ :=
  if s.reduction then D.gradient prediction target
  else (D.gradient prediction target).map
    (fun g => g / (elementCount prediction : ℚ))

/-- Modelled from the spec: the body of `ReconstructionLoss::Backward` is
in `reconstruction_loss_impl.hpp`, absent from the sources.  Spec §4.2:
computes the (possibly mean-scaled) gradient of the negative
log-probability, writes it into the caller-supplied `loss` output
parameter (whose previous contents `lossIn` are fully overwritten, the
storage being resized as needed), and overwrites the instance's cached
`outputParameter` buffer with the same gradient; fails with
`ShapeMismatch` when the element counts differ.  The result pairs the new
contents of the output parameter with the state after the call. -/
def ReconstructionLoss.Backward (D : DistStrategy) (s : ReconstructionLoss)
    (prediction target lossIn : List ℚ) :
    Except LossError (List ℚ × ReconstructionLoss) :=
  if prediction.length = target.length then
    let grad := scaledGradient D s prediction target
    .ok (grad, { s with outputParameter := grad })
  else
    .error .shapeMismatch

/-- Modelled from the spec: a failing call propagates its error before any
output is produced or any instance state is mutated (spec §7, fail-fast),
so after a failed `Forward` the caller observes no scalar and the
unchanged instance. -/
def ReconstructionLoss.ForwardStep (D : DistStrategy)
    (s : ReconstructionLoss) (prediction target : List ℚ) :
    Option ℚ × ReconstructionLoss :=
  match ReconstructionLoss.Forward D s prediction target with
  | .ok (v, s') => (some v, s')
  | .error _ => (none, s)

/-- Modelled from the spec: after a failed `Backward` the caller observes
the unchanged output-parameter storage and the unchanged instance
(spec §7, fail-fast). -/
def ReconstructionLoss.BackwardStep (D : DistStrategy)
    (s : ReconstructionLoss) (prediction target lossIn : List ℚ) :
    Option Unit × List ℚ × ReconstructionLoss :=
  match ReconstructionLoss.Backward D s prediction target lossIn with
  | .ok (g, s') => (some (), g, s')
  | .error _ => (none, lossIn, s)

/-- A concrete distribution strategy used to exercise the generic loss
unit at concrete inputs. -/
def sampleDist : DistStrategy where
  logProbability := fun p t => List.zipWith (fun x y => x * y - x) p t
  gradient := fun p t => List.zipWith (fun x y => x - y) p t



/-- C1: for every prediction/target pair with matching element counts,
`Forward` returns `raw = -sum(LogProbability(prediction, target))`
unchanged when the reduction flag is true (sum), and `raw` divided by the
element count of the prediction when the flag is false (mean); the
instance is unchanged. -/
theorem forward_reduction_formula (D : DistStrategy) (s : ReconstructionLoss)
    (p t : List ℚ) (h : p.length = t.length) :
    ReconstructionLoss.Forward D s p t =
      .ok ((if s.reduction then -((D.logProbability p t).sum)
            else -((D.logProbability p t).sum) / (elementCount p : ℚ)), s) := by
  simp only [ReconstructionLoss.Forward, h, if_true]
  split <;> simp

/-- Witness for C1 at a concrete input. -/
theorem forward_reduction_formula_witness :
    ReconstructionLoss.Forward sampleDist (ReconstructionLoss.construct true)
      [(1 : ℚ), 2] [3, 4] =
      .ok ((if (ReconstructionLoss.construct true).reduction then
              -((sampleDist.logProbability [(1 : ℚ), 2] [3, 4]).sum)
            else -((sampleDist.logProbability [(1 : ℚ), 2] [3, 4]).sum) /
              (elementCount [(1 : ℚ), 2] : ℚ)),
           ReconstructionLoss.construct true) :=
  forward_reduction_formula sampleDist (ReconstructionLoss.construct true)
    [(1 : ℚ), 2] [3, 4] (by decide)

/-- C2: for matching element counts, the scalar returned by `Forward`
under mean reduction equals the scalar returned by `Forward` under sum
reduction divided by the element count of the prediction. -/
theorem forward_mean_eq_sum_div (D : DistStrategy) (buf p t : List ℚ)
    (h : p.length = t.length) :
    (ReconstructionLoss.Forward D ⟨buf, false⟩ p t).map Prod.fst =
      (ReconstructionLoss.Forward D ⟨buf, true⟩ p t).map
        (fun v => v.1 / (elementCount p : ℚ)) := by
  simp [ReconstructionLoss.Forward, h, Except.map]

/-- Witness for C2 at a concrete input. -/
theorem forward_mean_eq_sum_div_witness :
    (ReconstructionLoss.Forward sampleDist ⟨[], false⟩ [(1 : ℚ), 2] [3, 4]).map
        Prod.fst =
      (ReconstructionLoss.Forward sampleDist ⟨[], true⟩ [(1 : ℚ), 2] [3, 4]).map
        (fun v => v.1 / (elementCount [(1 : ℚ), 2] : ℚ)) :=
  forward_mean_eq_sum_div sampleDist [] [(1 : ℚ), 2] [3, 4] (by decide)

/-- C3: for matching element counts, the gradient produced by `Backward`
under mean reduction equals the gradient produced by `Backward` under sum
reduction scaled element-wise by one over the element count of the
prediction. -/
theorem backward_mean_eq_sum_scaled (D : DistStrategy)
    (buf p t lossIn : List ℚ) (h : p.length = t.length) :
    (ReconstructionLoss.Backward D ⟨buf, false⟩ p t lossIn).map Prod.fst =
      (ReconstructionLoss.Backward D ⟨buf, true⟩ p t lossIn).map
        (fun g => g.1.map (fun x => x / (elementCount p : ℚ))) := by
  simp [ReconstructionLoss.Backward, scaledGradient, h, Except.map]

/-- Witness for C3 at a concrete input. -/
theorem backward_mean_eq_sum_scaled_witness :
    (ReconstructionLoss.Backward sampleDist ⟨[], false⟩ [(1 : ℚ), 2] [3, 4]
        [9]).map Prod.fst =
      (ReconstructionLoss.Backward sampleDist ⟨[], true⟩ [(1 : ℚ), 2] [3, 4]
        [9]).map
        (fun g => g.1.map (fun x => x / (elementCount [(1 : ℚ), 2] : ℚ))) :=
  backward_mean_eq_sum_scaled sampleDist [] [(1 : ℚ), 2] [3, 4] [9] (by decide)

/-- C4: whenever prediction and target element counts differ, both
`Forward` and `Backward` fail with `shapeMismatch` and return no value. -/
theorem shape_mismatch_fails (D : DistStrategy) (s : ReconstructionLoss)
    (p t lossIn : List ℚ) (h : p.length ≠ t.length) :
    ReconstructionLoss.Forward D s p t = .error .shapeMismatch ∧
    ReconstructionLoss.Backward D s p t lossIn = .error .shapeMismatch := by
  refine ⟨?_, ?_⟩ <;>
    simp [ReconstructionLoss.Forward, ReconstructionLoss.Backward, h]

/-- Witness for C4 at a concrete input with differing element counts. -/
theorem shape_mismatch_fails_witness :
    ReconstructionLoss.Forward sampleDist ⟨[], true⟩ [(1 : ℚ)] [3, 4] =
      .error .shapeMismatch ∧
    ReconstructionLoss.Backward sampleDist ⟨[], true⟩ [(1 : ℚ)] [3, 4] [] =
      .error .shapeMismatch :=
  shape_mismatch_fails sampleDist ⟨[], true⟩ [(1 : ℚ)] [3, 4] [] (by decide)


/-- Helper: a successful `Forward` returns the instance it was given. -/
theorem forward_ok_snd_eq (D : DistStrategy) (s : ReconstructionLoss)
    (p t : List ℚ) (v : ℚ) (s' : ReconstructionLoss)
    (h : ReconstructionLoss.Forward D s p t = .ok (v, s')) : s' = s := by
  unfold ReconstructionLoss.Forward at h
  split at h
  · split at h <;>
      (simp only [Except.ok.injEq, Prod.mk.injEq] at h; exact h.2.symm)
  · simp at h

/-- C5: for matching element counts, `Backward` writes the (possibly
mean-scaled) gradient of the negative log-probability into the
caller-supplied output parameter and overwrites the cached
`outputParameter` buffer with that same gradient, so reading
`OutputParameter()` (through either accessor) after `Backward` yields the
gradient just written. -/
theorem backward_writes_gradient (D : DistStrategy) (s : ReconstructionLoss)
    (p t lossIn : List ℚ) (h : p.length = t.length) :
    ReconstructionLoss.Backward D s p t lossIn =
      .ok (scaledGradient D s p t,
           { s with outputParameter := scaledGradient D s p t }) ∧
    (∀ g s', ReconstructionLoss.Backward D s p t lossIn = .ok (g, s') →
      s'.OutputParameterConstGet = g ∧ s'.OutputParameterMutGet = g) := by
  have hb : ReconstructionLoss.Backward D s p t lossIn =
      .ok (scaledGradient D s p t,
           { s with outputParameter := scaledGradient D s p t }) := by
    simp [ReconstructionLoss.Backward, h]
  refine ⟨hb, ?_⟩
  intro g s' hg
  rw [hb] at hg
  simp only [Except.ok.injEq, Prod.mk.injEq] at hg
  obtain ⟨hg1, hg2⟩ := hg
  subst hg1
  subst hg2
  exact ⟨rfl, rfl⟩

/-- Witness for C5 at a concrete input. -/
theorem backward_writes_gradient_witness :
    ReconstructionLoss.Backward sampleDist ⟨[], true⟩ [(1 : ℚ), 2] [3, 4]
        [9] =
      .ok (scaledGradient sampleDist ⟨[], true⟩ [(1 : ℚ), 2] [3, 4],
           { (⟨[], true⟩ : ReconstructionLoss) with
             outputParameter :=
               scaledGradient sampleDist ⟨[], true⟩ [(1 : ℚ), 2] [3, 4] }) ∧
    (∀ g s',
      ReconstructionLoss.Backward sampleDist ⟨[], true⟩ [(1 : ℚ), 2] [3, 4]
          [9] = .ok (g, s') →
      s'.OutputParameterConstGet = g ∧ s'.OutputParameterMutGet = g) :=
  backward_writes_gradient sampleDist ⟨[], true⟩ [(1 : ℚ), 2] [3, 4] [9]
    (by decide)

/-- C6: `Forward` has no side effect on the instance: a successful call
returns the instance unchanged, and stepping the instance through
`Forward` leaves it as it was. -/
theorem forward_no_side_effects (D : DistStrategy) (s : ReconstructionLoss)
    (p t : List ℚ) (v : ℚ) (s' : ReconstructionLoss)
    (h : ReconstructionLoss.Forward D s p t = .ok (v, s')) :
    s' = s ∧ (ReconstructionLoss.ForwardStep D s p t).2 = s := by
  have hs : s' = s := forward_ok_snd_eq D s p t v s' h
  refine ⟨hs, ?_⟩
  simp [ReconstructionLoss.ForwardStep, h, hs]

/-- Witness for C6 at a concrete input. -/
theorem forward_no_side_effects_witness :
    (⟨[], true⟩ : ReconstructionLoss) = ⟨[], true⟩ ∧
    (ReconstructionLoss.ForwardStep sampleDist ⟨[], true⟩ [(1 : ℚ), 2]
        [3, 4]).2 = ⟨[], true⟩ :=
  forward_no_side_effects sampleDist ⟨[], true⟩ [(1 : ℚ), 2] [3, 4] (-8)
    ⟨[], true⟩ (by simp [ReconstructionLoss.Forward, sampleDist,
      elementCount]; norm_num)

/-- C7: `Forward` is deterministic — the call is a pure function of the
strategy, the instance and the tensors, and a repeated call starting from
the state left by a successful call returns the identical scalar (no
hidden state drift between calls). -/
theorem forward_deterministic (D : DistStrategy) (s : ReconstructionLoss)
    (p t : List ℚ) (v : ℚ) (s' : ReconstructionLoss)
    (h : ReconstructionLoss.Forward D s p t = .ok (v, s')) :
    ReconstructionLoss.Forward D s p t = ReconstructionLoss.Forward D s p t ∧
    ReconstructionLoss.Forward D s' p t = .ok (v, s') := by
  have hs : s' = s := forward_ok_snd_eq D s p t v s' h
  subst hs
  exact ⟨rfl, h⟩

/-- Witness for C7 at a concrete input. -/
theorem forward_deterministic_witness :
    ReconstructionLoss.Forward sampleDist ⟨[], true⟩ [(1 : ℚ), 2] [3, 4] =
      ReconstructionLoss.Forward sampleDist ⟨[], true⟩ [(1 : ℚ), 2] [3, 4] ∧
    ReconstructionLoss.Forward sampleDist ⟨[], true⟩ [(1 : ℚ), 2] [3, 4] =
      .ok (-8, ⟨[], true⟩) :=
  forward_deterministic sampleDist ⟨[], true⟩ [(1 : ℚ), 2] [3, 4] (-8)
    ⟨[], true⟩ (by simp [ReconstructionLoss.Forward, sampleDist,
      elementCount]; norm_num)

/-- C8: a failed `Forward` or `Backward` call leaves the reduction flag
and the whole stored configuration unchanged and produces no partial
output: the caller observes no scalar, the untouched output-parameter
storage and the original instance. -/
theorem failed_call_preserves_state (D : DistStrategy)
    (s : ReconstructionLoss) (p t lossIn : List ℚ)
    (h : p.length ≠ t.length) :
    ReconstructionLoss.ForwardStep D s p t = (none, s) ∧
    ReconstructionLoss.BackwardStep D s p t lossIn = (none, lossIn, s) ∧
    (ReconstructionLoss.ForwardStep D s p t).2.Reduction = s.Reduction ∧
    (ReconstructionLoss.BackwardStep D s p t lossIn).2.2.Reduction =
      s.Reduction := by
  simp [ReconstructionLoss.ForwardStep, ReconstructionLoss.BackwardStep,
        ReconstructionLoss.Forward, ReconstructionLoss.Backward, h]

/-- Witness for C8 at a concrete input with differing element counts. -/
theorem failed_call_preserves_state_witness :
    ReconstructionLoss.ForwardStep sampleDist ⟨[7], false⟩ [(1 : ℚ)]
        [3, 4] = (none, ⟨[7], false⟩) ∧
    ReconstructionLoss.BackwardStep sampleDist ⟨[7], false⟩ [(1 : ℚ)]
        [3, 4] [5] = (none, [5], ⟨[7], false⟩) ∧
    (ReconstructionLoss.ForwardStep sampleDist ⟨[7], false⟩ [(1 : ℚ)]
        [3, 4]).2.Reduction = (⟨[7], false⟩ : ReconstructionLoss).Reduction ∧
    (ReconstructionLoss.BackwardStep sampleDist ⟨[7], false⟩ [(1 : ℚ)]
        [3, 4] [5]).2.2.Reduction =
      (⟨[7], false⟩ : ReconstructionLoss).Reduction :=
  failed_call_preserves_state sampleDist ⟨[7], false⟩ [(1 : ℚ)] [3, 4] [5]
    (by decide)

/-- C9: construction stores the given reduction flag (defaulting to true
when no argument is supplied) and never fails; `Reduction()` returns the
constructed value, after assignment through the setter it returns the
assigned value, and that value is the one read by every subsequent
`Forward`/`Backward` call (their results agree with those on a freshly
constructed instance carrying the same flag). -/
theorem construction_and_reduction_accessor :
    ReconstructionLoss.constructDefault.Reduction = true ∧
    (∀ b : Bool, (ReconstructionLoss.construct b).Reduction = b) ∧
    (∀ (s : ReconstructionLoss) (b : Bool), (s.ReductionSet b).Reduction = b) ∧
    (∀ (D : DistStrategy) (s : ReconstructionLoss) (b : Bool) (p t : List ℚ),
      (ReconstructionLoss.Forward D (s.ReductionSet b) p t).map Prod.fst =
      (ReconstructionLoss.Forward D (ReconstructionLoss.construct b) p t).map
        Prod.fst) ∧
    (∀ (D : DistStrategy) (s : ReconstructionLoss) (b : Bool)
        (p t lossIn : List ℚ),
      (ReconstructionLoss.Backward D (s.ReductionSet b) p t lossIn).map
          Prod.fst =
      (ReconstructionLoss.Backward D (ReconstructionLoss.construct b) p t
          lossIn).map Prod.fst) := by
  refine ⟨rfl, fun b => rfl, fun s b => rfl, ?_, ?_⟩
  · intro D s b p t
    cases b <;> by_cases hl : p.length = t.length <;>
      simp [ReconstructionLoss.Forward, ReconstructionLoss.ReductionSet,
            ReconstructionLoss.construct, hl, Except.map]
  · intro D s b p t lossIn
    cases b <;> by_cases hl : p.length = t.length <;>
      simp [ReconstructionLoss.Backward, scaledGradient,
            ReconstructionLoss.ReductionSet, ReconstructionLoss.construct,
            hl, Except.map]

/-- C10: both `OutputParameter()` overloads — the one declared const and
the mutable one — designate the same stored `outputParameter` member:
reads through either observe the same value, and the member is writable
through either accessor, the one declared const included. -/
theorem output_parameter_accessors_alias :
    (∀ s : ReconstructionLoss,
      s.OutputParameterConstGet = s.outputParameter ∧
      s.OutputParameterMutGet = s.outputParameter) ∧
    (∀ (s : ReconstructionLoss) (v : List ℚ),
      (s.OutputParameterConstSet v).OutputParameterMutGet = v ∧
      (s.OutputParameterMutSet v).OutputParameterConstGet = v ∧
      s.OutputParameterConstSet v = s.OutputParameterMutSet v) :=
  ⟨fun s => ⟨rfl, rfl⟩, fun s v => ⟨rfl, rfl, rfl⟩⟩

end MlpackAnn
